import Mathlib

/-
Shallow embedding of raw2mpc.py (Raw data file to MATPOWER case converter).

Conventions of the embedding:
- The input stream is modelled after tokenization: a list of rows, each row the
  list of string fields that the csv reader (with skipinitialspace) yields for
  one input line.  The csv reader object is modelled by explicit state passing
  of the remaining rows; reader.next() on an exhausted stream is StopIteration.
- Python floats are modelled as exact rationals; float(s) and int(s) are
  modelled by pyFloat and pyInt, which accept the decimal forms the claims
  exercise and raise ValueError otherwise, as Python does.
- Python exceptions are the PyErr error type of an Except computation.
- numpy 2-D arrays are lists of lists of rationals; element read/write with an
  out-of-range index is IndexError, as in numpy.
- logger.warning calls inside _load_data and _version are modelled as an
  explicit warning list (the claims refer to them); logger.info and
  logger.error calls are pure side channels and are not modelled.
-/

/-- Python exceptions that the program can raise. -/
inductive PyErr
  | stopIteration
  | valueError
  | indexError
  | assertionError
  | typeError
  | keyError
deriving DecidableEq, Repr

/-- Exact rational numbers with executable (kernel-reducible) arithmetic,
modelling Python floats.  Values produced by the arithmetic below are always
in lowest terms with positive denominator, so structural equality coincides
with numeric equality on them. -/
structure PFloat where
  num : Int
  den : Nat
deriving DecidableEq, Repr

/-- Euclidean gcd on Nat by fuel (structural recursion, kernel-reducible). -/
def gcdAux : Nat → Nat → Nat → Nat
  | 0, _, b => b
  | _ + 1, 0, b => b
  | f + 1, a + 1, b => gcdAux f (b % (a + 1)) (a + 1)

/-- gcd with enough fuel. -/
def natGcd (a b : Nat) : Nat := gcdAux (a + b + 1) a b

/-- Reduce a fraction to lowest terms. -/
def pfNormalize (n : Int) (d : Nat) : PFloat :=
  if d = 0 then ⟨0, 0⟩
  else
    let g := natGcd n.natAbs d
    ⟨n / (g : Int), d / g⟩

def pfAdd (a b : PFloat) : PFloat :=
  pfNormalize (a.num * (b.den : Int) + b.num * (a.den : Int)) (a.den * b.den)

def pfMul (a b : PFloat) : PFloat :=
  pfNormalize (a.num * b.num) (a.den * b.den)

def pfNeg (a : PFloat) : PFloat := ⟨-a.num, a.den⟩

def pfSub (a b : PFloat) : PFloat := pfAdd a (pfNeg b)

def pfDiv (a b : PFloat) : PFloat :=
  pfNormalize (a.num * (b.den : Int) * (if b.num < 0 then -1 else 1))
    (a.den * b.num.natAbs)

instance (n : Nat) : OfNat PFloat n := ⟨⟨(n : Int), 1⟩⟩

instance : NatCast PFloat := ⟨fun n => ⟨(n : Int), 1⟩⟩

instance : IntCast PFloat := ⟨fun n => ⟨n, 1⟩⟩

instance : Add PFloat := ⟨pfAdd⟩

instance : Mul PFloat := ⟨pfMul⟩

instance : Neg PFloat := ⟨pfNeg⟩

instance : Sub PFloat := ⟨pfSub⟩

instance : Div PFloat := ⟨pfDiv⟩

/-- Ten to a natural power. -/
def pfTenPow (k : Nat) : PFloat := ⟨((10 ^ k : Nat) : Int), 1⟩

/-- Ten to an integer power. -/
def pfTenPowInt (e : Int) : PFloat :=
  if 0 ≤ e then pfTenPow e.toNat else pfDiv 1 (pfTenPow (-e).toNat)

/-- logger.warning events emitted by _load_data and _version. -/
inductive PyWarn
  | constCurrent : PFloat → PFloat → String → Nat → PyWarn
  | constAdmittance : PFloat → PFloat → String → Nat → PyWarn
  | notScaled : String → Nat → PFloat → PyWarn
  | unsupportedVersion : Int → PyWarn
deriving DecidableEq, Repr

deriving instance DecidableEq for Except

/-- One tokenized input line: the list of its string fields. -/
abbrev RawRow := List String

/-- A numeric table (numpy 2-D array): list of rows of rationals. -/
abbrev RawMat := List (List PFloat)

/-- The busmap dict: bus number text and bus name both map to a row index.
Later insertions shadow earlier ones, as for a Python dict. -/
abbrev Busmap := List (String × Nat)

/-- The apostrophe character, used as the quote around bus names. -/
def squote : Char := Char.ofNat 39

/-- Python str.strip() whitespace set. -/
def isPySpace (c : Char) : Bool :=
  c = Char.ofNat 32 || c = Char.ofNat 9 || c = Char.ofNat 10 ||
  c = Char.ofNat 13 || c = Char.ofNat 11 || c = Char.ofNat 12

/-- Strip a character class from both ends of a character list. -/
def trimBy (p : Char → Bool) (cs : List Char) : List Char :=
  ((cs.dropWhile p).reverse.dropWhile p).reverse

/-- Python s.strip(). -/
def pyStrip (s : String) : String := String.mk (trimBy isPySpace s.data)

/-- Python s.strip(squote): remove apostrophes from both ends. -/
def stripSq (s : String) : String := String.mk (trimBy (fun c => c = squote) s.data)

/-- Python s.split(slash)[0]: the text before the first slash. -/
def splitHead (s : String) : String := String.mk (s.data.takeWhile (fun c => c ≠ '/'))

/-- Python (slash in s). -/
def slashIn (s : String) : Bool := s.data.any (fun c => c = '/')

/-- field.split(slash)[0].strip(): the form used for sentinel detection. -/
def commentStripped (s : String) : String := pyStrip (splitHead s)

/-- Python bool(s) for a str: true iff nonempty. -/
def pyBool (s : String) : Bool := !(s == "")

/-- Numeric value of a digit list (most significant first). -/
def natOfDigits (ds : List Char) : Nat :=
  ds.foldl (fun a c => a * 10 + (c.toNat - 48)) 0

/-- Split a leading run of decimal digits. -/
def takeDigits (cs : List Char) : List Char × List Char :=
  (cs.takeWhile Char.isDigit, cs.dropWhile Char.isDigit)

/-- Read an optional sign, returning the sign as a rational. -/
def readSign (cs : List Char) : PFloat × List Char :=
  match cs with
  | '-' :: r => (-1, r)
  | '+' :: r => (1, r)
  | r => (1, r)

/-- Parse the digits after an exponent marker: optional sign then digits only. -/
def parseExp (cs : List Char) : Option Int :=
  let (sg, cs1) := readSign cs
  let (ds, rest) := takeDigits cs1
  if ds.isEmpty || !rest.isEmpty then none
  else some ((if sg = -1 then -1 else 1) * (natOfDigits ds : Int))

/-- Parse an unsigned decimal mantissa (digits, optional point, digits). -/
def parseMantissa (cs : List Char) : Option (PFloat × List Char) :=
  let (ip, cs1) := takeDigits cs
  match cs1 with
  | '.' :: cs2 =>
    let (fp, cs3) := takeDigits cs2
    if ip.isEmpty && fp.isEmpty then none
    else some ((natOfDigits ip : PFloat) + (natOfDigits fp : PFloat) / pfTenPow fp.length, cs3)
  | _ => if ip.isEmpty then none else some ((natOfDigits ip : PFloat), cs1)

/-- Python float(s) on the decimal forms occurring in Raw files. -/
def pyFloat (s : String) : Except PyErr PFloat :=
  let cs := trimBy isPySpace s.data
  let (sg, cs1) := readSign cs
  match parseMantissa cs1 with
  | none => .error .valueError
  | some (m, rest) =>
    match rest with
    | [] => .ok (sg * m)
    | c :: r2 =>
      if c = 'e' || c = 'E' then
        match parseExp r2 with
        | some e => .ok (sg * m * pfTenPowInt e)
        | none => .error .valueError
      else .error .valueError

/-- Python int(s): optional sign then digits only. -/
def pyInt (s : String) : Except PyErr Int :=
  let cs := trimBy isPySpace s.data
  let (sg, cs1) := readSign cs
  let (ds, rest) := takeDigits cs1
  if ds.isEmpty || !rest.isEmpty then .error .valueError
  else .ok ((if sg = -1 then -1 else 1) * (natOfDigits ds : Int))

/-- row[i] for a field row: IndexError when out of range. -/
def sAt (row : RawRow) (i : Nat) : Except PyErr String :=
  match row.get? i with
  | some s => .ok s
  | none => .error .indexError

/-- float(row[i]). -/
def fAt (row : RawRow) (i : Nat) : Except PyErr PFloat :=
  match sAt row i with
  | .error e => .error e
  | .ok s => pyFloat s

/-- int(row[i]). -/
def iAt (row : RawRow) (i : Nat) : Except PyErr Int :=
  match sAt row i with
  | .error e => .error e
  | .ok s => pyInt s

/-- m[i, j] for a numeric table. -/
def matGet (m : RawMat) (i j : Nat) : Except PyErr PFloat :=
  match m.get? i with
  | none => .error .indexError
  | some row =>
    match row.get? j with
    | none => .error .indexError
    | some v => .ok v

/-- m[i, j] = v for a numeric table. -/
def matSet (m : RawMat) (i j : Nat) (v : PFloat) : Except PyErr RawMat :=
  match m.get? i with
  | none => .error .indexError
  | some row =>
    if j < row.length then .ok (m.set i (row.set j v)) else .error .indexError

/-- dict assignment busmap[k] = v (newest binding shadows older ones). -/
def bmInsert (bm : Busmap) (k : String) (v : Nat) : Busmap := (k, v) :: bm

/-- dict lookup. -/
def bmLookup (bm : Busmap) (k : String) : Option Nat :=
  match bm.find? (fun p => p.1 == k) with
  | some p => some p.2
  | none => none

/-- _busidx: strip apostrophes from the identifier, look it up in busmap; unresolved
identifiers yield None (the logger.error call is a pure side channel). -/
def busidx (i : String) (bm : Busmap) : Option Nat :=
  bmLookup bm (stripSq i)

def DEFAULT_VERSION : Int := 30

def SUPPORTED_VERSIONS : List Int := [29, 30, 31, 32]

/-- The version-field parse inside _version: int of the third header field,
with any trailing slash-comment stripped first. -/
def readRev (f : String) : Except PyErr Int :=
  if slashIn f then pyInt (pyStrip (splitHead f)) else pyInt f

/-- _version: determine the data format version from the first line, or default. -/
def version_detect (rows : List RawRow) : Except PyErr (Int × List PyWarn) :=
  match rows with
  | [] => .error .stopIteration
  | h0 :: _ =>
    if h0.length < 3 then
      .ok (DEFAULT_VERSION, [])
    else
      match sAt h0 2 with
      | .error e => .error e
      | .ok f =>
        match readRev f with
        | .error e => .error e
        | .ok v =>
          if v ∈ SUPPORTED_VERSIONS then .ok (v, [])
          else .ok (DEFAULT_VERSION, [PyWarn.unsupportedVersion v])

/-- _case_identification: read the three header lines, assert the first field of
the first line is the text 0 or 1, and return float of its second field. -/
def case_identification (rows : List RawRow) : Except PyErr (PFloat × List RawRow) :=
  match rows with
  | [] => .error .stopIteration
  | h0 :: rest1 =>
    match rest1 with
    | [] => .error .stopIteration
    | _ :: rest2 =>
      match rest2 with
      | [] => .error .stopIteration
      | _ :: rest3 =>
        match sAt h0 0 with
        | .error e => .error e
        | .ok f0 =>
          if f0 = "0" ∨ f0 = "1" then
            match fAt h0 1 with
            | .error e => .error e
            | .ok b => .ok (b, rest3)
          else .error .assertionError

/-- Build one 13-column bus row from a raw bus record, by revision layout.
Columns: bus_i type Pd Qd Gs Bs area Vm Va baseKV zone Vmax Vmin.
Revisions 29/30: Gs=f4 Bs=f5 area=f6 Vm=f8 Va=f9 zone=f7; 31/32: area=f4 Vm=f7
Va=f8 zone=f5.  Other revisions take neither branch and leave those columns 0.
Pd and Qd start at 0; Vmax/Vmin are fixed at 1.1/0.9 (exact rationals here). -/
def busRowOf (row : RawRow) (ver : Int) : Except PyErr (List PFloat) :=
  match iAt row 0 with
  | .error e => .error e
  | .ok i0 =>
    match fAt row 3 with
    | .error e => .error e
    | .ok t =>
      if ver = 29 ∨ ver = 30 then
        match fAt row 4 with
        | .error e => .error e
        | .ok gs =>
          match fAt row 5 with
          | .error e => .error e
          | .ok bs =>
            match iAt row 6 with
            | .error e => .error e
            | .ok ar =>
              match fAt row 8 with
              | .error e => .error e
              | .ok vm =>
                match fAt row 9 with
                | .error e => .error e
                | .ok va =>
                  match fAt row 7 with
                  | .error e => .error e
                  | .ok zn =>
                    match fAt row 2 with
                    | .error e => .error e
                    | .ok bkv =>
                      .ok [(i0 : PFloat), t, 0, 0, gs, bs, (ar : PFloat), vm, va, bkv, zn,
                           (11 : PFloat) / 10, (9 : PFloat) / 10]
      else if ver = 31 ∨ ver = 32 then
        match iAt row 4 with
        | .error e => .error e
        | .ok ar =>
          match fAt row 7 with
          | .error e => .error e
          | .ok vm =>
            match fAt row 8 with
            | .error e => .error e
            | .ok va =>
              match fAt row 5 with
              | .error e => .error e
              | .ok zn =>
                match fAt row 2 with
                | .error e => .error e
                | .ok bkv =>
                  .ok [(i0 : PFloat), t, 0, 0, 0, 0, (ar : PFloat), vm, va, bkv, zn,
                       (11 : PFloat) / 10, (9 : PFloat) / 10]
      else
        match fAt row 2 with
        | .error e => .error e
        | .ok bkv =>
          .ok [(i0 : PFloat), t, 0, 0, 0, 0, 0, 0, 0, bkv, 0, (11 : PFloat) / 10, (9 : PFloat) / 10]

/-- The _bus_data loop: one bus row and two busmap entries (number and stripped
name) per record, until the sentinel row. -/
def busLoop : List RawRow → RawMat → Busmap → Int → Nat →
    Except PyErr ((RawMat × Busmap) × List RawRow)
  | [], _, _, _, _ => .error .stopIteration
  | row :: rest, buses, bm, ver, c =>
    match sAt row 0 with
    | .error e => .error e
    | .ok f0 =>
      if commentStripped f0 = "0" then
        .ok ((buses, bm), rest)
      else
        match sAt row 1 with
        | .error e => .error e
        | .ok f1 =>
          let bm1 := bmInsert (bmInsert bm f0 c) (stripSq f1) c
          match busRowOf row ver with
          | .error e => .error e
          | .ok b => busLoop rest (buses ++ [b]) bm1 ver (c + 1)

/-- _bus_data. -/
def bus_data (rows : List RawRow) (ver : Int) :
    Except PyErr ((RawMat × Busmap) × List RawRow) :=
  busLoop rows [] [] ver 0

/-- The body of one accepted _load_data iteration (status true, bus resolved):
assigns Pd and Qd (columns 2 and 3) from fields 5 and 6 - note assignment, not
accumulation - then inspects the constant-current (7,8), constant-admittance
(9,10) and, for revision 32, scale (12) fields, emitting warnings.  The scale
guard reproduces the source condition (scale not 0) or (scale not 1). -/
def loadApply (i0 : String) (row : RawRow) (bus : RawMat) (idx : Nat) (ver : Int)
    (w : List PyWarn) : Except PyErr (RawMat × List PyWarn) :=
  match fAt row 5 with
  | .error e => .error e
  | .ok pl =>
    match matSet bus idx 2 pl with
    | .error e => .error e
    | .ok bus1 =>
      match fAt row 6 with
      | .error e => .error e
      | .ok ql =>
        match matSet bus1 idx 3 ql with
        | .error e => .error e
        | .ok bus2 =>
          match fAt row 7 with
          | .error e => .error e
          | .ok ip =>
            match fAt row 8 with
            | .error e => .error e
            | .ok iq =>
              let w1 := if ip ≠ 0 ∨ iq ≠ 0 then w ++ [PyWarn.constCurrent ip iq i0 idx] else w
              match fAt row 9 with
              | .error e => .error e
              | .ok yp =>
                match fAt row 10 with
                | .error e => .error e
                | .ok yq =>
                  let w2 := if yp ≠ 0 ∨ yq ≠ 0 then
                      w1 ++ [PyWarn.constAdmittance yp yq i0 idx] else w1
                  if ver = 32 then
                    match fAt row 12 with
                    | .error e => .error e
                    | .ok sc =>
                      let w3 := if sc ≠ 0 ∨ sc ≠ 1 then
                          w2 ++ [PyWarn.notScaled i0 idx sc] else w2
                      .ok (bus2, w3)
                  else .ok (bus2, w2)

/-- The _load_data loop: rows with true status (Python bool of the raw field 2
text) and a resolved bus identifier are applied; others are passed over. -/
def loadLoop : List RawRow → RawMat → Busmap → Int → List PyWarn →
    Except PyErr (RawMat × List PyWarn × List RawRow)
  | [], _, _, _, _ => .error .stopIteration
  | row :: rest, bus, bm, ver, w =>
    match sAt row 0 with
    | .error e => .error e
    | .ok f0 =>
      if commentStripped f0 = "0" then
        .ok (bus, w, rest)
      else
        match sAt row 2 with
        | .error e => .error e
        | .ok st =>
          if pyBool st then
            match busidx f0 bm with
            | some idx =>
              match loadApply f0 row bus idx ver w with
              | .error e => .error e
              | .ok (bus2, w2) => loadLoop rest bus2 bm ver w2
            | none => loadLoop rest bus bm ver w
          else loadLoop rest bus bm ver w

/-- _load_data. -/
def load_data (rows : List RawRow) (bus : RawMat) (bm : Busmap) (ver : Int) :
    Except PyErr (RawMat × List PyWarn × List RawRow) :=
  loadLoop rows bus bm ver []

/-- Build one 21-column generator row.  Column 0 (the bus field) is never
assigned in the source and stays 0; columns 1-9 come from fields
2,3,4,5,6,8,14,16,17; the rest stay 0. -/
def genRowOf (row : RawRow) : Except PyErr (List PFloat) :=
  match fAt row 2 with
  | .error e => .error e
  | .ok pg =>
    match fAt row 3 with
    | .error e => .error e
    | .ok qg =>
      match fAt row 4 with
      | .error e => .error e
      | .ok qt =>
        match fAt row 5 with
        | .error e => .error e
        | .ok qb =>
          match fAt row 6 with
          | .error e => .error e
          | .ok vs =>
            match fAt row 8 with
            | .error e => .error e
            | .ok mb =>
              match fAt row 14 with
              | .error e => .error e
              | .ok st =>
                match fAt row 16 with
                | .error e => .error e
                | .ok pt =>
                  match fAt row 17 with
                  | .error e => .error e
                  | .ok pb =>
                    .ok [0, pg, qg, qt, qb, vs, mb, st, pt, pb,
                         0, 0, 0, 0, 0, 0, 0, 0, 0, 0, 0]

/-- The _generator_data loop: rows with a resolved bus identifier append a
generator row; unresolved rows are dropped silently. -/
def genLoop : List RawRow → RawMat → Busmap → Except PyErr (RawMat × List RawRow)
  | [], _, _ => .error .stopIteration
  | row :: rest, gens, bm =>
    match sAt row 0 with
    | .error e => .error e
    | .ok f0 =>
      if commentStripped f0 = "0" then
        .ok (gens, rest)
      else
        match busidx f0 bm with
        | some _ =>
          match genRowOf row with
          | .error e => .error e
          | .ok g => genLoop rest (gens ++ [g]) bm
        | none => genLoop rest gens bm

/-- _generator_data. -/
def generator_data (rows : List RawRow) (bm : Busmap) :
    Except PyErr (RawMat × List RawRow) :=
  genLoop rows [] bm

/-- Build one 13-column branch row given the two values a = bus[fbus, 0] and
b = bus[tbus, 1] that the source assigns to its first two columns (the source
reads column 1 - the type column - of the to bus).  Columns 8 and 9 (ratio,
angle) stay 0; angle limits are fixed at -360/360. -/
def brchRowOf (row : RawRow) (a b : PFloat) : Except PyErr (List PFloat) :=
  match fAt row 3 with
  | .error e => .error e
  | .ok r =>
    match fAt row 4 with
    | .error e => .error e
    | .ok x =>
      match fAt row 5 with
      | .error e => .error e
      | .ok bb =>
        match fAt row 6 with
        | .error e => .error e
        | .ok ra =>
          match fAt row 7 with
          | .error e => .error e
          | .ok rb2 =>
            match fAt row 8 with
            | .error e => .error e
            | .ok rc =>
              match fAt row 13 with
              | .error e => .error e
              | .ok st =>
                .ok [a, b, r, x, bb, ra, rb2, rc, 0, 0, st, -360, 360]

/-- The _nontransformer_branch_data loop: rows with both endpoints resolved
append a branch row built from bus[fbus, 0] and bus[tbus, 1]. -/
def brchLoop : List RawRow → RawMat → RawMat → Busmap →
    Except PyErr (RawMat × List RawRow)
  | [], _, _, _ => .error .stopIteration
  | row :: rest, brs, bus, bm =>
    match sAt row 0 with
    | .error e => .error e
    | .ok f0 =>
      if commentStripped f0 = "0" then
        .ok (brs, rest)
      else
        match sAt row 1 with
        | .error e => .error e
        | .ok f1 =>
          match busidx f0 bm, busidx f1 bm with
          | some fb, some tb =>
            match matGet bus fb 0 with
            | .error e => .error e
            | .ok a =>
              match matGet bus tb 1 with
              | .error e => .error e
              | .ok b =>
                match brchRowOf row a b with
                | .error e => .error e
                | .ok br => brchLoop rest (brs ++ [br]) bus bm
          | _, _ => brchLoop rest brs bus bm

/-- _nontransformer_branch_data. -/
def nontransformer_branch_data (rows : List RawRow) (bus : RawMat) (bm : Busmap) :
    Except PyErr (RawMat × List RawRow) :=
  brchLoop rows [] bus bm

/-- The _switched_shunt_data loop: for version 32 the status is bool of field 2,
otherwise always true; the susceptance comes from field 9 (v32) or field 7 and
is accumulated into bus column 5 with +=. -/
def shuntLoop : List RawRow → RawMat → Int → Busmap →
    Except PyErr (RawMat × List RawRow)
  | [], _, _, _ => .error .stopIteration
  | row :: rest, bus, ver, bm =>
    match sAt row 0 with
    | .error e => .error e
    | .ok f0 =>
      if commentStripped f0 = "0" then
        .ok (bus, rest)
      else
        match (if ver = 32 then (sAt row 2).map pyBool else .ok true) with
        | .error e => .error e
        | .ok status =>
          match status, busidx f0 bm with
          | true, some idx =>
            match fAt row (if ver = 32 then 9 else 7) with
            | .error e => .error e
            | .ok bs =>
              match matGet bus idx 5 with
              | .error e => .error e
              | .ok cur =>
                match matSet bus idx 5 (cur + bs) with
                | .error e => .error e
                | .ok bus2 => shuntLoop rest bus2 ver bm
          | _, _ => shuntLoop rest bus ver bm

/-- _switched_shunt_data. -/
def switched_shunt_data (rows : List RawRow) (bus : RawMat) (ver : Int)
    (bm : Busmap) : Except PyErr (RawMat × List RawRow) :=
  shuntLoop rows bus ver bm

/-- _fixed_shunt_data: the body is pass, so the reader state is unchanged
(no row of the section is consumed). -/
def fixed_shunt_data (reader : List RawRow) : List RawRow := reader

/-- _transformer_data: pass; neither the reader nor the branch table changes. -/
def transformer_data (reader : List RawRow) (branch : RawMat) (ver : Option Int)
    (bm : Busmap) : RawMat × List RawRow := (branch, reader)

/-- _area_interchange_data: pass. -/
def area_interchange_data (reader : List RawRow) : List RawRow := reader

/-- _two_terminal_dc_line_data: pass. -/
def two_terminal_dc_line_data (reader : List RawRow) : List RawRow := reader

/-- _vsc_dc_lines: pass.  It requires one reader argument; pf2mpc calls it with
none, which raises TypeError there. -/
def vsc_dc_lines (reader : List RawRow) : List RawRow := reader

/-- _transformer_impedance_correction_tables: pass (pf2mpc calls it with no
arguments, unreachable behind the _vsc_dc_lines TypeError). -/
def transformer_impedance_correction_tables (reader : List RawRow) : List RawRow := reader

/-- _multi_terminal_dc_transmission_line_data: pass. -/
def multi_terminal_dc_transmission_line_data (reader : List RawRow) : List RawRow := reader

/-- _multi_section_line_grouping_data: pass. -/
def multi_section_line_grouping_data (reader : List RawRow) : List RawRow := reader

/-- _zone_data: pass. -/
def zone_data (reader : List RawRow) : List RawRow := reader

/-- _interarea_transfer_data: pass. -/
def interarea_transfer_data (reader : List RawRow) : List RawRow := reader

/-- _owner_data: pass. -/
def owner_data (reader : List RawRow) : List RawRow := reader

/-- _facts_device_data: pass. -/
def facts_device_data (reader : List RawRow) : List RawRow := reader

/-- _q_record: pass. -/
def q_record (reader : List RawRow) : List RawRow := reader

/-- The pipeline state reached by pf2mpc just before source line 131
(its call of _vsc_dc_lines with no argument). -/
structure PipeState where
  baseMVA : PFloat
  busdata : RawMat
  gendata : RawMat
  branchdata : RawMat
  reader : List RawRow
deriving DecidableEq, Repr

/-- pf2mpc source lines 110-130: version detection (when no version is given),
case identification, bus, load, the fixed-shunt placeholder for revisions
31/32, generator, non-transformer branch, and the transformer, area-interchange
and two-terminal-dc placeholders (each of which consumes nothing). -/
def pf2mpcBody (rows : List RawRow) (version : Option Int) : Except PyErr PipeState :=
  match (match version with
         | some v => Except.ok v
         | none => (version_detect rows).map Prod.fst) with
  | .error e => .error e
  | .ok rev =>
    match case_identification rows with
    | .error e => .error e
    | .ok (baseMVA, r1) =>
      match bus_data r1 rev with
      | .error e => .error e
      | .ok ((busd, bm), r2) =>
        match load_data r2 busd bm rev with
        | .error e => .error e
        | .ok (busd2, _w, r3) =>
          let r4 := if rev = 31 ∨ rev = 32 then fixed_shunt_data r3 else r3
          match generator_data r4 bm with
          | .error e => .error e
          | .ok (gend, r5) =>
            match nontransformer_branch_data r5 busd2 bm with
            | .error e => .error e
            | .ok (brd, r6) =>
              let (brd2, r7) := transformer_data r6 brd version bm
              let r8 := area_interchange_data r7
              let r9 := two_terminal_dc_line_data r8
              .ok ⟨baseMVA, busd2, gend, brd2, r9⟩

/-- The case model dict pf2mpc would return (source lines 150-155). -/
structure Mpc where
  baseMVA : PFloat
  bus : RawMat
  gen : RawMat
  branch : RawMat
deriving DecidableEq, Repr

/-- pf2mpc.  After the pipeline of pf2mpcBody, source line 131 executes
the call of _vsc_dc_lines with zero arguments although its definition requires
one parameter, which raises TypeError; every statement from line 133 on
(including both _switched_shunt_data calls and the mpc construction) is
therefore unreachable. -/
def pf2mpc (rows : List RawRow) (version : Option Int) : Except PyErr Mpc :=
  match pf2mpcBody rows version with
  | .error e => .error e
  | .ok _ => .error .typeError

/-- A value of the top-level mpc dict. -/
inductive MpcVal
  | num : PFloat → MpcVal
  | mat : RawMat → MpcVal
deriving DecidableEq, Repr

/-- The top-level mpc dict. -/
abbrev MpcDict := List (String × MpcVal)

/-- dict[k] = v keeping insertion order, as Python dict.update does per key. -/
def dictSet (d : MpcDict) (k : String) (v : MpcVal) : MpcDict :=
  if d.any (fun p => p.1 == k) then
    d.map (fun p => if p.1 == k then (k, v) else p)
  else d ++ [(k, v)]

/-- dict.update. -/
def dictUpdate (d u : MpcDict) : MpcDict :=
  u.foldl (fun a p => dictSet a p.1 p.2) d

/-- The dict pf2mpc returns, as merged into mpc by raw2mpc. -/
def mpcDict (m : Mpc) : MpcDict :=
  [("baseMVA", .num m.baseMVA), ("bus", .mat m.bus),
   ("gen", .mat m.gen), ("branch", .mat m.branch)]

/-- opf2mpc returns an empty dict. -/
def opf2mpc (rows : List RawRow) (version : Option Int) : MpcDict := []

/-- raw2mpc after the primary input: the OPF input (None, or an open attempt
that fails with status 2, or content handed to opf2mpc), then the MAT-file
save, attempted only when a matfile is given and mpc is nonempty, assigning
status 3 on failure.  Each failing stage overwrites status. -/
def raw2mpcRest (mpc : MpcDict) (status : Nat)
    (opfFile : Option (Except Unit (List RawRow))) (matfile : Bool)
    (saveOk : Bool) (version : Option Int) : Except PyErr (MpcDict × Nat) :=
  let s2 : MpcDict × Nat :=
    match opfFile with
    | none => (mpc, status)
    | some (.error _) => (mpc, 2)
    | some (.ok orows) => (dictUpdate mpc (opf2mpc orows version), status)
  let st3 := if matfile && !s2.1.isEmpty && !saveOk then 3 else s2.2
  .ok (s2.1, st3)

/-- raw2mpc with a primary input path: pfOpen models the outcome of opening the
path (failure assigns status 1 and leaves the model empty; success runs pf2mpc,
whose exceptions propagate out of raw2mpc uncaught). -/
def raw2mpc (pfOpen : Except Unit (List RawRow))
    (opfFile : Option (Except Unit (List RawRow))) (matfile : Bool)
    (saveOk : Bool) (version : Option Int) : Except PyErr (MpcDict × Nat) :=
  match pfOpen with
  | .error _ => raw2mpcRest [] 1 opfFile matfile saveOk version
  | .ok rows =>
    match pf2mpc rows version with
    | .error e => .error e
    | .ok m => raw2mpcRest (dictUpdate [] (mpcDict m)) 0 opfFile matfile saveOk version

/-- Whether an Except computation returned normally. -/
def exceptIsOk {ε α : Type} : Except ε α → Bool
  | .ok _ => true
  | .error _ => false

/-- The tokenized end-to-end input: a comma-delimited revision-30 case
identification header with base 100 MVA, two title lines, one bus row
(id 1, name BUS1 in apostrophes, base kV 138, type 1, area 1, zone 1,
Vm 1.0, Va 0.0), a sentinel, one load row for bus 1 with PL=50, QL=20 and
status 1, a sentinel, and sentinel-only rows for every remaining section. -/
def c1rows : List RawRow := [
  ["0", "100.0", "30"],
  ["CASE TITLE LINE ONE"],
  ["CASE TITLE LINE TWO"],
  ["1", String.mk (squote :: ("BUS1".data ++ [squote])), "138", "1", "0", "0",
   "1", "1", "1.0", "0.0", "1"],
  ["0"],
  ["1", "1", "1", "1", "1", "50", "20", "0", "0", "0", "0", "1"],
  ["0"],
  ["0"], ["0"], ["0"], ["0"], ["0"], ["0"], ["0"],
  ["0"], ["0"], ["0"], ["0"], ["0"], ["0"], ["0"]]

/-- get? after set at the same (in-range) index. -/
theorem list_get_set_self {α : Type} (l : List α) (i : Nat) (a : α) (h : i < l.length) :
    (l.set i a).get? i = some a := by
  induction l generalizing i with
  | nil => simp at h
  | cons x xs ih =>
    cases i with
    | zero => rfl
    | succ n => simpa using ih n (by simpa using h)

/-- get? after set at a different index. -/
theorem list_get_set_ne {α : Type} (l : List α) (i j : Nat) (a : α) (h : i ≠ j) :
    (l.set i a).get? j = l.get? j := by
  induction l generalizing i j with
  | nil => rfl
  | cons x xs ih =>
    cases i with
    | zero =>
      cases j with
      | zero => exact absurd rfl h
      | succ m => rfl
    | succ n =>
      cases j with
      | zero => rfl
      | succ m => simpa using ih n m (by omega)

/-- A successful get? is in range. -/
theorem list_get_some_lt {α : Type} (l : List α) (i : Nat) (a : α)
    (h : l.get? i = some a) : i < l.length := by
  induction l generalizing i with
  | nil => simp [List.get?] at h
  | cons x xs ih =>
    cases i with
    | zero => simp
    | succ n => simpa using ih n (by simpa using h)

/-- matSet succeeds on an in-range position and sets the entry. -/
theorem matSet_ok {m : RawMat} {row : List PFloat} {i j : Nat} (v : PFloat)
    (hrow : m.get? i = some row) (hj : j < row.length) :
    matSet m i j v = .ok (m.set i (row.set j v)) := by
  rw [List.get?_eq_getElem?] at hrow
  simp [matSet, hrow, hj]

/-- matGet returns the entry at an in-range position. -/
theorem matGet_ok {m : RawMat} {row : List PFloat} {i j : Nat} {v : PFloat}
    (hrow : m.get? i = some row) (hv : row.get? j = some v) :
    matGet m i j = .ok v := by
  rw [List.get?_eq_getElem?] at hrow hv
  simp [matGet, hrow, hv]

/-- A successful matGet exposes the row and entry. -/
theorem matGet_inv {m : RawMat} {i j : Nat} {v : PFloat} (h : matGet m i j = .ok v) :
    ∃ row, m.get? i = some row ∧ row.get? j = some v := by
  cases hm : m.get? i with
  | none =>
    rw [List.get?_eq_getElem?] at hm
    simp [matGet, hm] at h
  | some row =>
    have hm' := hm
    rw [List.get?_eq_getElem?] at hm'
    cases hr : row.get? j with
    | none =>
      rw [List.get?_eq_getElem?] at hr
      simp [matGet, hm', hr] at h
    | some u =>
      have hr' := hr
      rw [List.get?_eq_getElem?] at hr'
      have hu : u = v := by simpa [matGet, hm', hr'] using h
      exact ⟨row, rfl, by rw [hr, hu]⟩

/-- The load loop stops at a sentinel row, consuming it. -/
theorem loadLoop_stop (rest : List RawRow) (bus : RawMat) (bm : Busmap) (ver : Int)
    (w : List PyWarn) : loadLoop (["0"] :: rest) bus bm ver w = .ok (bus, w, rest) := by
  rfl

/-- One accepted load row (true status, resolved bus, zero constant-current and
constant-admittance components, revision other than 32) assigns columns 2 and 3
of the bus row and continues. -/
theorem loadLoop_step (i p q : String) (pv qv : PFloat) (rest : List RawRow) (bus : RawMat)
    (bm : Busmap) (ver : Int) (w : List PyWarn) (idx : Nat) (row : List PFloat)
    (hterm : commentStripped i ≠ "0") (hlook : busidx i bm = some idx)
    (hrow : bus.get? idx = some row) (h2 : 2 < row.length) (h3 : 3 < row.length)
    (hp : pyFloat p = .ok pv) (hq : pyFloat q = .ok qv) (hv : ver ≠ 32) :
    loadLoop ([i, "1", "1", "1", "1", p, q, "0", "0", "0", "0", "1"] :: rest) bus bm ver w
      = loadLoop rest ((bus.set idx (row.set 2 pv)).set idx ((row.set 2 pv).set 3 qv))
          bm ver w := by
  have hidx : idx < bus.length := list_get_some_lt _ _ _ hrow
  have hrow2 : (bus.set idx (row.set 2 pv)).get? idx = some (row.set 2 pv) :=
    list_get_set_self _ _ _ (by simpa using hidx)
  have hms1 : matSet bus idx 2 pv = .ok (bus.set idx (row.set 2 pv)) :=
    matSet_ok pv hrow h2
  have hms2 : matSet (bus.set idx (row.set 2 pv)) idx 3 qv
      = .ok ((bus.set idx (row.set 2 pv)).set idx ((row.set 2 pv).set 3 qv)) :=
    matSet_ok qv hrow2 (by simpa using h3)
  have e0 : sAt [i, "1", "1", "1", "1", p, q, "0", "0", "0", "0", "1"] 0 = .ok i := rfl
  have e2 : sAt [i, "1", "1", "1", "1", p, q, "0", "0", "0", "0", "1"] 2 = .ok "1" := rfl
  have e5 : fAt [i, "1", "1", "1", "1", p, q, "0", "0", "0", "0", "1"] 5 = pyFloat p := rfl
  have e6 : fAt [i, "1", "1", "1", "1", p, q, "0", "0", "0", "0", "1"] 6 = pyFloat q := rfl
  have pz : pyFloat "0" = .ok 0 := by decide
  have e7 : fAt [i, "1", "1", "1", "1", p, q, "0", "0", "0", "0", "1"] 7 = pyFloat "0" := rfl
  have e8 : fAt [i, "1", "1", "1", "1", p, q, "0", "0", "0", "0", "1"] 8 = pyFloat "0" := rfl
  have e9 : fAt [i, "1", "1", "1", "1", p, q, "0", "0", "0", "0", "1"] 9 = pyFloat "0" := rfl
  have e10 : fAt [i, "1", "1", "1", "1", p, q, "0", "0", "0", "0", "1"] 10 = pyFloat "0" := rfl
  have eb : pyBool "1" = true := rfl
  simp only [loadLoop, e0, if_neg hterm, e2, eb, eq_self_iff_true, if_true, hlook,
    loadApply, e5, e6, e7, e8, e9, e10, pz, hp, hq, hms1, hms2, if_neg hv]
  norm_num

/-- The shunt loop stops at a sentinel row, consuming it. -/
theorem shuntLoop_stop (rest : List RawRow) (bus : RawMat) (ver : Int) (bm : Busmap) :
    shuntLoop (["0"] :: rest) bus ver bm = .ok (bus, rest) := by
  rfl

/-- One switched-shunt row at the pre-32 layout (no status field, susceptance in
field 7) with a resolved bus adds its susceptance into bus column 5. -/
theorem shuntLoop_step (i s1 : String) (b1 cur : PFloat) (rest : List RawRow)
    (bus : RawMat) (bm : Busmap) (ver : Int) (idx : Nat) (row : List PFloat)
    (hterm : commentStripped i ≠ "0") (hv : ver ≠ 32) (hlook : busidx i bm = some idx)
    (hrow : bus.get? idx = some row) (hcur : row.get? 5 = some cur)
    (h1 : pyFloat s1 = .ok b1) :
    shuntLoop ([i, "1", "1", "1", "1", "1", "1", s1] :: rest) bus ver bm
      = shuntLoop rest (bus.set idx (row.set 5 (cur + b1))) ver bm := by
  have h5 : 5 < row.length := list_get_some_lt _ _ _ hcur
  have hmg : matGet bus idx 5 = .ok cur := matGet_ok hrow hcur
  have hms : matSet bus idx 5 (cur + b1) = .ok (bus.set idx (row.set 5 (cur + b1))) :=
    matSet_ok _ hrow h5
  have e0 : sAt [i, "1", "1", "1", "1", "1", "1", s1] 0 = .ok i := rfl
  have e7 : fAt [i, "1", "1", "1", "1", "1", "1", s1] 7 = pyFloat s1 := rfl
  simp only [shuntLoop, e0, if_neg hterm, if_neg hv, e7, h1, hlook, hmg, hms]

/-- The branch loop stops at a sentinel row, consuming it. -/
theorem brchLoop_stop (rest : List RawRow) (brs bus : RawMat) (bm : Busmap) :
    brchLoop (["0"] :: rest) brs bus bm = .ok (brs, rest) := by
  rfl

/-- C9: for revisions 29 and 30 the switched-shunt parser, for each row whose
bus identifier resolves (status is treated as true at this layout), adds the
row susceptance value (field 7) into bus column 5, accumulating additively
across multiple shunt records on the same bus: two records with values b1 and
b2 leave the bus susceptance at its initial value plus b1 plus b2. -/
theorem c9_shunt_accumulates (ver : Int) (hver : ver = 29 ∨ ver = 30)
    (i s1 s2 : String) (b1 b2 cur : PFloat) (bm : Busmap) (bus : RawMat) (idx : Nat)
    (row : List PFloat) (rest : List RawRow)
    (hterm : commentStripped i ≠ "0") (hlook : busidx i bm = some idx)
    (hrow : bus.get? idx = some row) (hcur : row.get? 5 = some cur)
    (h1 : pyFloat s1 = .ok b1) (h2 : pyFloat s2 = .ok b2) :
    ∃ bus2, switched_shunt_data ([i, "1", "1", "1", "1", "1", "1", s1] ::
        [i, "1", "1", "1", "1", "1", "1", s2] :: ["0"] :: rest) bus ver bm
        = .ok (bus2, rest)
      ∧ matGet bus2 idx 5 = .ok (cur + b1 + b2) := by
  have hv : ver ≠ 32 := by rcases hver with h | h <;> omega
  have hidx : idx < bus.length := list_get_some_lt _ _ _ hrow
  have h5 : 5 < row.length := list_get_some_lt _ _ _ hcur
  have hrow1 : (bus.set idx (row.set 5 (cur + b1))).get? idx
      = some (row.set 5 (cur + b1)) :=
    list_get_set_self _ _ _ (by simpa using hidx)
  have hcur1 : (row.set 5 (cur + b1)).get? 5 = some (cur + b1) :=
    list_get_set_self _ _ _ (by simpa using h5)
  refine ⟨(bus.set idx (row.set 5 (cur + b1))).set idx
      ((row.set 5 (cur + b1)).set 5 (cur + b1 + b2)), ?_, ?_⟩
  · unfold switched_shunt_data
    rw [shuntLoop_step i s1 b1 cur _ bus bm ver idx row hterm hv hlook hrow hcur h1,
      shuntLoop_step i s2 b2 (cur + b1) _ _ bm ver idx _ hterm hv hlook hrow1 hcur1 h2,
      shuntLoop_stop]
  · exact matGet_ok
      (list_get_set_self _ _ _ (by simpa using hidx))
      (list_get_set_self _ _ _ (by simpa using h5))

/-- C9 witness: two shunt records of 2 and 3 on bus 4 (initially 0) leave its
susceptance column at 0 + 2 + 3. -/
theorem c9_witness : ∃ bus2, switched_shunt_data
    [["4", "1", "1", "1", "1", "1", "1", "2"], ["4", "1", "1", "1", "1", "1", "1", "3"],
     ["0"]]
    [[0, 0, 0, 0, 0, 0, 0, 0, 0, 0, 0, 0, 0]] 29 [("4", 0)] = .ok (bus2, [])
    ∧ matGet bus2 0 5 = .ok (0 + 2 + 3) :=
  c9_shunt_accumulates 29 (Or.inl rfl) "4" "2" "3" 2 3 0 [("4", 0)]
    [[0, 0, 0, 0, 0, 0, 0, 0, 0, 0, 0, 0, 0]] 0 [0, 0, 0, 0, 0, 0, 0, 0, 0, 0, 0, 0, 0]
    [] (by decide) (by decide) (by decide) (by decide) (by decide) (by decide)

/-- C3 counterexample: the claim states that two true-status load rows with
demands (10, 5) and (3, 1) on the same bus leave the bus load fields at the
sum (13, 6); on the code the second assignment overwrites the first, leaving
(3, 1), which differs from (13, 6). -/
theorem c3_counterexample :
    load_data [["1", "1", "1", "1", "1", "10", "5", "0", "0", "0", "0", "1"],
               ["1", "1", "1", "1", "1", "3", "1", "0", "0", "0", "0", "1"], ["0"]]
      [[1, 1, 0, 0, 0, 0, 1, 1, 0, 138, 1, 11/10, 9/10]]
      [("1", 0)] 30
      = .ok ([[1, 1, 3, 1, 0, 0, 1, 1, 0, 138, 1, 11/10, 9/10]], [], [])
    ∧ ((3 : PFloat), (1 : PFloat)) ≠ ((13 : PFloat), (6 : PFloat)) := by
  decide

/-- C3 amended: load parsing assigns (does not accumulate): after two
true-status load rows for the same resolved bus identifier, the bus load
columns 2 and 3 hold exactly the second row demands, whatever the first row
contributed (so (10, 5) then (3, 1) leaves (3, 1), not (13, 6)). -/
theorem c3_load_overwrites (i p1 q1 p2 q2 : String) (pv1 qv1 pv2 qv2 : PFloat)
    (bm : Busmap) (bus : RawMat) (idx : Nat) (row : List PFloat) (rest : List RawRow)
    (hterm : commentStripped i ≠ "0") (hlook : busidx i bm = some idx)
    (hrow : bus.get? idx = some row) (hlen : row.length = 13)
    (hp1 : pyFloat p1 = .ok pv1) (hq1 : pyFloat q1 = .ok qv1)
    (hp2 : pyFloat p2 = .ok pv2) (hq2 : pyFloat q2 = .ok qv2) :
    ∃ bus2, load_data ([i, "1", "1", "1", "1", p1, q1, "0", "0", "0", "0", "1"] ::
        [i, "1", "1", "1", "1", p2, q2, "0", "0", "0", "0", "1"] :: ["0"] :: rest)
        bus bm 30
      = .ok (bus2, [], rest)
      ∧ matGet bus2 idx 2 = .ok pv2 ∧ matGet bus2 idx 3 = .ok qv2 := by
  have h2 : 2 < row.length := by omega
  have h3 : 3 < row.length := by omega
  have hidx : idx < bus.length := list_get_some_lt _ _ _ hrow
  have hlen1 : ((row.set 2 pv1).set 3 qv1).length = row.length := by
    simp [List.length_set]
  have hrow1 : ((bus.set idx (row.set 2 pv1)).set idx
      ((row.set 2 pv1).set 3 qv1)).get? idx = some ((row.set 2 pv1).set 3 qv1) :=
    list_get_set_self _ _ _ (by simpa using hidx)
  refine ⟨(((bus.set idx (row.set 2 pv1)).set idx ((row.set 2 pv1).set 3 qv1)).set idx
      (((row.set 2 pv1).set 3 qv1).set 2 pv2)).set idx
      ((((row.set 2 pv1).set 3 qv1).set 2 pv2).set 3 qv2), ?_, ?_, ?_⟩
  · unfold load_data
    rw [loadLoop_step i p1 q1 pv1 qv1 _ bus bm 30 [] idx row hterm hlook hrow h2 h3
        hp1 hq1 (by omega),
      loadLoop_step i p2 q2 pv2 qv2 _ _ bm 30 [] idx _ hterm hlook hrow1
        (by simp [List.length_set]; omega) (by simp [List.length_set]; omega)
        hp2 hq2 (by omega),
      loadLoop_stop]
  · refine matGet_ok (list_get_set_self _ _ _ (by simpa using hidx)) ?_
    rw [list_get_set_ne _ 3 2 _ (by omega)]
    exact list_get_set_self _ _ _ (by simp [List.length_set]; omega)
  · exact matGet_ok (list_get_set_self _ _ _ (by simpa using hidx))
      (list_get_set_self _ _ _ (by simp [List.length_set]; omega))

/-- C3 witness: concrete instance of the amended statement with demands
(10, 5) then (3, 1) on bus 1, leaving the bus load columns at (3, 1). -/
theorem c3_witness : ∃ bus2,
    load_data [["1", "1", "1", "1", "1", "10", "5", "0", "0", "0", "0", "1"],
               ["1", "1", "1", "1", "1", "3", "1", "0", "0", "0", "0", "1"], ["0"]]
      [[0, 0, 0, 0, 0, 0, 0, 0, 0, 0, 0, 0, 0]] [("1", 0)] 30
      = .ok (bus2, [], [])
    ∧ matGet bus2 0 2 = .ok 3 ∧ matGet bus2 0 3 = .ok 1 :=
  c3_load_overwrites "1" "10" "5" "3" "1" 10 5 3 1 [("1", 0)]
    [[0, 0, 0, 0, 0, 0, 0, 0, 0, 0, 0, 0, 0]] 0 [0, 0, 0, 0, 0, 0, 0, 0, 0, 0, 0, 0, 0]
    [] (by decide) (by decide) (by decide) (by decide) (by decide) (by decide)
    (by decide) (by decide)

/-- C5: the claim states a load row whose status field text is the string 0 is
skipped; but the code computes Python bool of the raw text, and bool of a
nonempty string (including the string 0) is True, so the row is processed and
the bus load fields are set to its demands (7, 2) instead of being left
unmodified. -/
theorem c5_status_zero_not_skipped :
    pyBool "0" = true ∧
    load_data [["1", "1", "0", "1", "1", "7", "2", "0", "0", "0", "0", "1"], ["0"]]
      [[0, 0, 0, 0, 0, 0, 0, 0, 0, 0, 0, 0, 0]] [("1", 0)] 30
      = .ok ([[0, 0, 7, 2, 0, 0, 0, 0, 0, 0, 0, 0, 0]], [], []) := by
  decide

/-- C6: the claim states the revision-32 not-scaled warning is emitted iff the
scale factor differs from 1.0; but the source guard, scale not equal 0 or
scale not equal 1, is a tautology, so the warning is emitted even for a row
whose scale field is exactly 1.0 (while the demand itself is stored unscaled,
here (5, 2)). -/
theorem c6_scale_warning_tautology :
    load_data [["1", "1", "1", "1", "1", "5", "2", "0", "0", "0", "0", "1", "1.0"],
               ["0"]]
      [[0, 0, 0, 0, 0, 0, 0, 0, 0, 0, 0, 0, 0]] [("1", 0)] 32
      = .ok ([[0, 0, 5, 2, 0, 0, 0, 0, 0, 0, 0, 0, 0]],
             [PyWarn.notScaled "1" 0 1], []) := by
  decide

/-- C7 counterexample: with bus 5 at row index 0 (type 3) and bus 7 at row
index 1 (type 2), the claim states the appended branch row starts with the
row indices (0, 1); the code instead stores bus[fbus, 0] and bus[tbus, 1],
producing (5, 2): the from-bus identifier and the to-bus type code. -/
theorem c7_counterexample :
    nontransformer_branch_data
      [["5", "7", "1", "0.01", "0.02", "0.03", "10", "11", "12", "0", "0", "0", "0",
        "1"], ["0"]]
      [[5, 3, 0, 0, 0, 0, 1, 1, 0, 138, 1, 11/10, 9/10],
       [7, 2, 0, 0, 0, 0, 1, 1, 0, 138, 1, 11/10, 9/10]]
      [("5", 0), ("7", 1)]
      = .ok ([[5, 2, 1/100, 1/50, 3/100, 10, 11, 12, 0, 0, 1, -360, 360]], [])
    ∧ ¬ ((5 : PFloat) = 0 ∧ (2 : PFloat) = 1) := by
  decide

/-- C7 amended: for a non-transformer branch row whose endpoints both resolve,
the appended branch row first field is the bus-table entry at the from-bus row
and column 0 (the from-bus identifier, not its row index) and its second field
is the entry at the to-bus row and column 1 (the to-bus type code, not its row
index); the remaining fields are r, x, b, the three ratings, status and the
fixed angle limits. -/
theorem c7_branch_endpoint_fields (si sj ckt s3 s4 s5 s6 s7 s8 g9 g10 g11 g12
    s13 : String) (bm : Busmap) (bus : RawMat) (fb tb : Nat)
    (a b r x bb ra rb2 rc st : PFloat) (rest : List RawRow)
    (hterm : commentStripped si ≠ "0")
    (hf : busidx si bm = some fb) (ht : busidx sj bm = some tb)
    (ha : matGet bus fb 0 = .ok a) (hb : matGet bus tb 1 = .ok b)
    (hp3 : pyFloat s3 = .ok r) (hp4 : pyFloat s4 = .ok x) (hp5 : pyFloat s5 = .ok bb)
    (hp6 : pyFloat s6 = .ok ra) (hp7 : pyFloat s7 = .ok rb2)
    (hp8 : pyFloat s8 = .ok rc) (hp13 : pyFloat s13 = .ok st) :
    nontransformer_branch_data
      ([si, sj, ckt, s3, s4, s5, s6, s7, s8, g9, g10, g11, g12, s13] :: ["0"] :: rest)
      bus bm = .ok ([[a, b, r, x, bb, ra, rb2, rc, 0, 0, st, -360, 360]], rest) := by
  have e0 : sAt [si, sj, ckt, s3, s4, s5, s6, s7, s8, g9, g10, g11, g12, s13] 0
      = .ok si := rfl
  have e1 : sAt [si, sj, ckt, s3, s4, s5, s6, s7, s8, g9, g10, g11, g12, s13] 1
      = .ok sj := rfl
  have e3 : fAt [si, sj, ckt, s3, s4, s5, s6, s7, s8, g9, g10, g11, g12, s13] 3
      = pyFloat s3 := rfl
  have e4 : fAt [si, sj, ckt, s3, s4, s5, s6, s7, s8, g9, g10, g11, g12, s13] 4
      = pyFloat s4 := rfl
  have e5 : fAt [si, sj, ckt, s3, s4, s5, s6, s7, s8, g9, g10, g11, g12, s13] 5
      = pyFloat s5 := rfl
  have e6 : fAt [si, sj, ckt, s3, s4, s5, s6, s7, s8, g9, g10, g11, g12, s13] 6
      = pyFloat s6 := rfl
  have e7 : fAt [si, sj, ckt, s3, s4, s5, s6, s7, s8, g9, g10, g11, g12, s13] 7
      = pyFloat s7 := rfl
  have e8 : fAt [si, sj, ckt, s3, s4, s5, s6, s7, s8, g9, g10, g11, g12, s13] 8
      = pyFloat s8 := rfl
  have e13 : fAt [si, sj, ckt, s3, s4, s5, s6, s7, s8, g9, g10, g11, g12, s13] 13
      = pyFloat s13 := rfl
  unfold nontransformer_branch_data
  simp only [brchLoop, e0, if_neg hterm, e1, hf, ht, ha, hb, brchRowOf,
    e3, e4, e5, e6, e7, e8, e13, hp3, hp4, hp5, hp6, hp7, hp8, hp13,
    List.nil_append, brchLoop_stop]
  rfl

/-- C7 witness: concrete instance of the amended statement (bus 2 at row 0
with type 3, bus 8 at row 1 with type 1): the branch row starts with (2, 1),
the from-bus identifier and the to-bus type code. -/
theorem c7_witness :
    nontransformer_branch_data
      [["2", "8", "1", "0.5", "0.25", "0.125", "20", "21", "22", "0", "0", "0", "0",
        "1"], ["0"]]
      [[2, 3, 0, 0, 0, 0, 0, 0, 0, 0, 0, 0, 0],
       [8, 1, 0, 0, 0, 0, 0, 0, 0, 0, 0, 0, 0]]
      [("2", 0), ("8", 1)]
      = .ok ([[2, 1, 1/2, 1/4, 1/8, 20, 21, 22, 0, 0, 1, -360, 360]], []) :=
  c7_branch_endpoint_fields "2" "8" "1" "0.5" "0.25" "0.125" "20" "21" "22"
    "0" "0" "0" "0" "1"
    [("2", 0), ("8", 1)]
    [[2, 3, 0, 0, 0, 0, 0, 0, 0, 0, 0, 0, 0], [8, 1, 0, 0, 0, 0, 0, 0, 0, 0, 0, 0, 0]]
    0 1 2 1 (1/2) (1/4) (1/8) 20 21 22 1 []
    (by decide) (by decide) (by decide) (by decide) (by decide) (by decide)
    (by decide) (by decide) (by decide) (by decide) (by decide) (by decide)

/-- C4 counterexample: the claim states every unimplemented-section parser
consumes that section rows up to its sentinel so that the next implemented
section parses its own rows; but the fixed-shunt placeholder returns the
reader unchanged (it does not even consume the sentinel), so on a stream
holding the fixed-shunt sentinel followed by a generator row for the resolvable
bus 9, the generator parser stops at the fixed-shunt sentinel and produces an
empty generator table, leaving its own row unconsumed. -/
theorem c4_counterexample :
    fixed_shunt_data [["0"],
      ["9", "1", "5", "5", "5", "5", "5", "5", "5", "5", "5", "5", "5", "5", "1", "1",
       "5", "5"], ["0"]]
      = [["0"],
      ["9", "1", "5", "5", "5", "5", "5", "5", "5", "5", "5", "5", "5", "5", "1", "1",
       "5", "5"], ["0"]]
    ∧ ([["0"],
      ["9", "1", "5", "5", "5", "5", "5", "5", "5", "5", "5", "5", "5", "5", "1", "1",
       "5", "5"], ["0"]] : List RawRow) ≠
      [["9", "1", "5", "5", "5", "5", "5", "5", "5", "5", "5", "5", "5", "5", "1", "1",
       "5", "5"], ["0"]]
    ∧ generator_data [["0"],
      ["9", "1", "5", "5", "5", "5", "5", "5", "5", "5", "5", "5", "5", "5", "1", "1",
       "5", "5"], ["0"]] [("9", 0)]
      = .ok ([],
        [["9", "1", "5", "5", "5", "5", "5", "5", "5", "5", "5", "5", "5", "5", "1",
          "1", "5", "5"], ["0"]])
    ∧ ([] : RawMat) ≠ [[0, 5, 5, 5, 5, 5, 5, 1, 5, 5, 0, 0, 0, 0, 0, 0, 0, 0, 0, 0, 0]]
    := by
  decide

/-- C4 amended: the placeholder parsers for the unimplemented sections consume
no input at all: each returns the reader state unchanged (the cursor is not
advanced past the section rows or even its sentinel), so a subsequent
implemented section reads the skipped section rows or sentinel instead of its
own. -/
theorem c4_placeholders_consume_nothing :
    ∀ (rows : List RawRow) (branch : RawMat) (ver : Option Int) (bm : Busmap),
    fixed_shunt_data rows = rows
    ∧ transformer_data rows branch ver bm = (branch, rows)
    ∧ area_interchange_data rows = rows
    ∧ two_terminal_dc_line_data rows = rows
    ∧ vsc_dc_lines rows = rows
    ∧ transformer_impedance_correction_tables rows = rows
    ∧ multi_terminal_dc_transmission_line_data rows = rows
    ∧ multi_section_line_grouping_data rows = rows
    ∧ zone_data rows = rows
    ∧ interarea_transfer_data rows = rows
    ∧ owner_data rows = rows
    ∧ facts_device_data rows = rows
    ∧ q_record rows = rows := by
  intro rows branch ver bm
  exact ⟨rfl, rfl, rfl, rfl, rfl, rfl, rfl, rfl, rfl, rfl, rfl, rfl, rfl⟩

/-- C8 counterexample: when both the primary and the secondary input open
fail in one raw2mpc call, the claim states the returned status is the first
code assigned (1); the code instead returns 2, because the secondary-failure
assignment overwrites the earlier status. -/
theorem c8_counterexample :
    raw2mpc (.error ()) (some (.error ())) false true none = .ok ([], 2)
    ∧ (2 : Nat) ≠ 1 := by
  decide

/-- C8 amended: the returned status is the last code assigned, so later
failure categories overwrite earlier ones: with a failing primary open and a
failing secondary open the call returns status 2 (not 1), while with a failing
primary open and no secondary input it returns status 1.  (The save-failure
code 3 is only assigned when a nonempty model was assembled first.) -/
theorem c8_last_status_wins :
    ∀ (matfile saveOk : Bool) (version : Option Int),
    raw2mpc (.error ()) (some (.error ())) matfile saveOk version = .ok ([], 2)
    ∧ raw2mpc (.error ()) none matfile saveOk version = .ok ([], 1) := by
  intro matfile saveOk version
  cases matfile <;> cases saveOk <;> exact ⟨rfl, rfl⟩

/-- C10 counterexample: the claim states revision detection never fails; but a
header whose third field is not an integer literal makes the int conversion
raise ValueError. -/
theorem c10_counterexample :
    version_detect [["0", "100.0", "abc"]] = .error PyErr.valueError := by
  decide

/-- C10 amended: revision detection defaults to 30 when the first line has
fewer than three fields, and when the third field (comment-stripped) parses as
an integer it keeps a supported revision and falls back to 30 with a warning
for an unsupported one (such as 99); but it is not total: a third field that
is not an integer literal raises ValueError (and an empty stream raises
StopIteration). -/
theorem c10_version_fallback (h0 : RawRow) (rest : List RawRow) :
    (h0.length < 3 → version_detect (h0 :: rest) = .ok (DEFAULT_VERSION, []))
    ∧ (∀ f n, ¬ h0.length < 3 → h0.get? 2 = some f → readRev f = .ok n →
        version_detect (h0 :: rest) =
          if n ∈ SUPPORTED_VERSIONS then .ok (n, [])
          else .ok (DEFAULT_VERSION, [PyWarn.unsupportedVersion n])) := by
  constructor
  · intro h
    simp [version_detect, h]
  · intro f n hlen hf hn
    rw [List.get?_eq_getElem?] at hf
    simp [version_detect, hlen, sAt, hf, hn]

/-- C10 witness: a header with third field 99 makes detection proceed with
revision 30 and emit the unsupported-version warning. -/
theorem c10_witness :
    version_detect [["0", "100.0", "99"]]
      = .ok (DEFAULT_VERSION, [PyWarn.unsupportedVersion 99]) := by
  have h := (c10_version_fallback ["0", "100.0", "99"] []).2 "99" 99
    (by decide) (by decide) (by decide)
  rw [h]
  decide

set_option maxRecDepth 10000

/-- C1: on the end-to-end input c1rows the claim states pf2mpc returns a case
model with baseMVA 100, one bus row loaded with (50, 20), an empty generator
table and an empty branch table; the pipeline state reached just before source
line 131 holds exactly those values, but pf2mpc then calls _vsc_dc_lines with
zero arguments (one required) and raises TypeError instead of returning the
model. -/
theorem c1_endtoend_crash :
    pf2mpcBody c1rows none =
      .ok ⟨100, [[1, 1, 50, 20, 0, 0, 1, 1, 0, 138, 1, 11/10, 9/10]], [], [],
        [["0"], ["0"], ["0"], ["0"], ["0"], ["0"], ["0"], ["0"], ["0"], ["0"], ["0"],
         ["0"]]⟩
    ∧ pf2mpc c1rows none = .error PyErr.typeError := by
  decide

/-- C2: pf2mpc never returns a case model: on every input and version it
yields some exception, and whenever the pipeline up to source line 130
succeeds, the result is exactly the TypeError raised at line 131 by the
zero-argument call of _vsc_dc_lines, whose definition requires one
parameter. -/
theorem c2_pf2mpc_never_returns :
    ∀ (rows : List RawRow) (version : Option Int),
    (∃ e, pf2mpc rows version = .error e)
    ∧ (exceptIsOk (pf2mpcBody rows version) = true →
        pf2mpc rows version = .error PyErr.typeError) := by
  intro rows version
  constructor
  · cases h : pf2mpcBody rows version with
    | error e => exact ⟨e, by simp [pf2mpc, h]⟩
    | ok s => exact ⟨PyErr.typeError, by simp [pf2mpc, h]⟩
  · intro hok
    cases h : pf2mpcBody rows version with
    | error e => simp [exceptIsOk, h] at hok
    | ok s => simp [pf2mpc, h]

/-- C2 witness: on the concrete input c1rows the pipeline up to line 130
succeeds, and pf2mpc indeed ends in the TypeError. -/
theorem c2_witness : pf2mpc c1rows none = .error PyErr.typeError :=
  (c2_pf2mpc_never_returns c1rows none).2 (by decide)
